import Mathlib

/-!
Verification of the `cmake-content-page` demonstration program.

The program (`src/main.cpp`) prints the maximum of the two compile-time
constants 2 and 4, computed by `cmake_tutorial::max` from `max.hpp`, and
returns 0.  The header `max.hpp` is not part of the sources available here,
so `cmake_tutorial.max` is modelled from the specification; everything else
is embedded directly from `src/main.cpp`.
-/

namespace cmake_tutorial

/-- Modelled from the spec: `max.hpp` (declaring `cmake_tutorial::max`) is
missing from the sources.  Per the spec, the function "accepts two values of
the same comparable type; returns the value that is not smaller than the
other, using a single less-than (or greater-than) comparison", with a
deterministic choice on equality. -/
def max {α : Type} [LinearOrder α] (a b : α) : α :=
  if a < b then b else a

end cmake_tutorial

/-- The first compile-time constant of `main` (`constexpr int a = 2;`). -/
def progA : Int := 2

/-- The second compile-time constant of `main` (`constexpr int b = 4;`). -/
def progB : Int := 4

/-- The text `main` writes to standard output when its constants are `a` and
`b`: the fixed label, the two values, and `cmake_tutorial.max a b`, followed
by the newline produced by `std::endl`. -/
def programLine (a b : Int) : String :=
  "The maximum of " ++ toString a ++ " and " ++ toString b
    ++ " is: " ++ toString (cmake_tutorial.max a b) ++ "\n"

/-- The observable behaviour (standard output, exit status) of the program
when built with constants `a` and `b`: it writes `programLine a b` and
returns 0. -/
def programRun (a b : Int) : String × Nat :=
  (programLine a b, 0)

/-- The observable behaviour of `main` as built: `int main()` takes no
parameters and reads no environment, so whatever argument list and
environment the process is started with are ignored, and the constants are
fixed to 2 and 4. -/
def mainRun (args : List String) (env : List (String × String)) : String × Nat :=
  programRun progA progB

/-- The standard-output text of a run of the built program. -/
def mainOutput : String := (mainRun [] []).1

/-- The exit status of a run of the built program (`return 0;`). -/
def mainExitStatus : Nat := (mainRun [] []).2

/-- Does the character list `l` contain `pat` as a contiguous subsequence? -/
def hasSub (pat : List Char) : List Char → Bool
  | [] => pat.isEmpty
  | c :: t => pat.isPrefixOf (c :: t) || hasSub pat t

/-- Does the string `s` contain `pat` as a substring? -/
def strContains (s pat : String) : Bool :=
  hasSub pat.data s.data

theorem cmakeMax_eq_right {α : Type} [LinearOrder α] {a b : α} (h : a < b) :
    cmake_tutorial.max a b = b := if_pos h

theorem cmakeMax_eq_left {α : Type} [LinearOrder α] {a b : α} (h : b ≤ a) :
    cmake_tutorial.max a b = a := if_neg (not_lt.mpr h)

theorem left_le_cmakeMax {α : Type} [LinearOrder α] (a b : α) :
    a ≤ cmake_tutorial.max a b := by
  rcases le_or_lt b a with h | h
  · rw [cmakeMax_eq_left h]
  · rw [cmakeMax_eq_right h]; exact h.le

theorem right_le_cmakeMax {α : Type} [LinearOrder α] (a b : α) :
    b ≤ cmake_tutorial.max a b := by
  rcases le_or_lt b a with h | h
  · rw [cmakeMax_eq_left h]; exact h
  · rw [cmakeMax_eq_right h]

/-- C1: for every pair `(a, b)` over a linearly ordered type,
`cmake_tutorial.max` agrees with the reference maximum: it returns `b` when
`a < b`, returns `a` when `a > b`, returns `a` when the arguments are equal,
and the returned value is not smaller than either argument. -/
theorem max_matches_reference {α : Type} [LinearOrder α] (a b : α) :
    (a < b → cmake_tutorial.max a b = b) ∧
    (a > b → cmake_tutorial.max a b = a) ∧
    (a = b → cmake_tutorial.max a b = a) ∧
    cmake_tutorial.max a a = a ∧
    a ≤ cmake_tutorial.max a b ∧
    b ≤ cmake_tutorial.max a b :=
  ⟨fun h => cmakeMax_eq_right h,
   fun h => cmakeMax_eq_left h.le,
   fun h => cmakeMax_eq_left h.ge,
   cmakeMax_eq_left le_rfl,
   left_le_cmakeMax a b,
   right_le_cmakeMax a b⟩

/-- Witness for C1: the reference-maximum properties evaluated at the
concrete integer pair `(2, 4)`. -/
theorem max_matches_reference_witness :
    ((2 : Int) < 4 → cmake_tutorial.max (2 : Int) 4 = 4) ∧
    ((2 : Int) > 4 → cmake_tutorial.max (2 : Int) 4 = 2) ∧
    ((2 : Int) = 4 → cmake_tutorial.max (2 : Int) 4 = 2) ∧
    cmake_tutorial.max (2 : Int) 2 = 2 ∧
    (2 : Int) ≤ cmake_tutorial.max (2 : Int) 4 ∧
    (4 : Int) ≤ cmake_tutorial.max (2 : Int) 4 :=
  max_matches_reference 2 4

/-- C2: the program as built (constants 2 and 4) writes output containing
"2", "4" and the printed value of `max 2 4` (which is "4"), and exits with
status 0. -/
theorem built_run_output_and_status :
    strContains mainOutput "2" = true ∧
    strContains mainOutput "4" = true ∧
    strContains mainOutput (toString (cmake_tutorial.max progA progB)) = true ∧
    toString (cmake_tutorial.max progA progB) = "4" ∧
    mainExitStatus = 0 := by
  decide

/-- C3: every run of the program writes exactly one line (one newline
character, placed at the end of the output), and that line contains both
input values and the computed maximum. -/
theorem single_line_with_inputs_and_max (args : List String)
    (env : List (String × String)) :
    (mainRun args env).1.data.count '\n' = 1 ∧
    (mainRun args env).1.data.getLast? = some '\n' ∧
    strContains (mainRun args env).1 (toString progA) = true ∧
    strContains (mainRun args env).1 (toString progB) = true ∧
    strContains (mainRun args env).1 (toString (cmake_tutorial.max progA progB)) = true := by
  have h : mainRun args env = mainRun [] [] := rfl
  rw [h]; decide

/-- Witness for C3: the single-line property at a concrete argument list and
environment. -/
theorem single_line_with_inputs_and_max_witness :
    (mainRun ["x"] [("PATH", "/bin")]).1.data.count '\n' = 1 ∧
    (mainRun ["x"] [("PATH", "/bin")]).1.data.getLast? = some '\n' ∧
    strContains (mainRun ["x"] [("PATH", "/bin")]).1 (toString progA) = true ∧
    strContains (mainRun ["x"] [("PATH", "/bin")]).1 (toString progB) = true ∧
    strContains (mainRun ["x"] [("PATH", "/bin")]).1
      (toString (cmake_tutorial.max progA progB)) = true :=
  single_line_with_inputs_and_max ["x"] [("PATH", "/bin")]

/-- C4: `cmake_tutorial.max` is commutative in its outcome value: swapping
the argument order does not change the returned value. -/
theorem max_comm_outcome {α : Type} [LinearOrder α] (a b : α) :
    cmake_tutorial.max a b = cmake_tutorial.max b a := by
  rcases lt_trichotomy a b with h | h | h
  · rw [cmakeMax_eq_right h, cmakeMax_eq_left h.le]
  · subst h; rfl
  · rw [cmakeMax_eq_left h.le, cmakeMax_eq_right h]

/-- Witness for C4: commutativity at the concrete integer pair `(2, 4)`. -/
theorem max_comm_outcome_witness :
    cmake_tutorial.max (2 : Int) 4 = cmake_tutorial.max (4 : Int) 2 :=
  max_comm_outcome 2 4

/-- C5: every run of the program exits with status 0; no execution path
yields a non-zero status. -/
theorem exit_status_always_zero (args : List String)
    (env : List (String × String)) :
    (mainRun args env).2 = 0 := rfl

/-- Witness for C5: exit status 0 at a concrete argument list and
environment. -/
theorem exit_status_always_zero_witness :
    (mainRun ["a", "b"] [("HOME", "/root")]).2 = 0 :=
  exit_status_always_zero ["a", "b"] [("HOME", "/root")]

/-- C6: the program built with constants 7 and 7 outputs "7" as both inputs
and as the maximum (its output line is exactly
"The maximum of 7 and 7 is: 7" plus a newline), and exits with status 0. -/
theorem run_with_sevens :
    programRun 7 7 = ("The maximum of 7 and 7 is: 7\n", 0) ∧
    strContains (programRun 7 7).1 "7" = true ∧
    strContains (programRun 7 7).1 (toString (cmake_tutorial.max (7 : Int) 7)) = true ∧
    (programRun 7 7).2 = 0 := by
  decide

/-- C7: `cmake_tutorial.max` is deterministic: any two invocations with
equal arguments return equal results (and, being a plain function of its
arguments, it has no side effects). -/
theorem max_deterministic {α : Type} [LinearOrder α] (a b a2 b2 : α)
    (ha : a = a2) (hb : b = b2) :
    cmake_tutorial.max a b = cmake_tutorial.max a2 b2 := by
  subst ha; subst hb; rfl

/-- Witness for C7: determinism at the concrete integer pair `(2, 4)`. -/
theorem max_deterministic_witness :
    cmake_tutorial.max (2 : Int) 4 = cmake_tutorial.max (2 : Int) 4 :=
  max_deterministic 2 4 2 4 rfl rfl

/-- C8: the program consumes no command-line arguments or environment
variables: any two runs produce the same output and exit status regardless
of the arguments and environment supplied. -/
theorem run_ignores_args_and_env (args1 : List String)
    (env1 : List (String × String)) (args2 : List String)
    (env2 : List (String × String)) :
    mainRun args1 env1 = mainRun args2 env2 := rfl

/-- Witness for C8: two runs with different arguments and environments give
the same result. -/
theorem run_ignores_args_and_env_witness :
    mainRun ["--flag"] [("LANG", "C")] = mainRun [] [] :=
  run_ignores_args_and_env ["--flag"] [("LANG", "C")] [] []

/-- C9: the program's inputs are the fixed compile-time constants 2 and 4,
and on every run (whatever arguments and environment are supplied) the
output is exactly "The maximum of 2 and 4 is: " followed by the printed
value of `max 2 4` and the newline. -/
theorem inputs_fixed_to_two_and_four :
    progA = 2 ∧ progB = 4 ∧
    ∀ (args : List String) (env : List (String × String)),
      (mainRun args env).1 =
        "The maximum of 2 and 4 is: "
          ++ toString (cmake_tutorial.max (2 : Int) 4) ++ "\n" :=
  ⟨rfl, rfl, fun args env => by
    have h : mainRun args env = mainRun [] [] := rfl
    rw [h]; decide⟩

/-- C10: the program always terminates: every run is a total straight-line
computation evaluating to the definite result
("The maximum of 2 and 4 is: 4" plus a newline, exit status 0). -/
theorem run_terminates (args : List String)
    (env : List (String × String)) :
    mainRun args env = ("The maximum of 2 and 4 is: 4\n", 0) := by
  have h : mainRun args env = mainRun [] [] := rfl
  rw [h]
  decide

/-- Witness for C10: the definite result at a concrete argument list and
environment. -/
theorem run_terminates_witness :
    mainRun ["y"] [("TERM", "xterm")] = ("The maximum of 2 and 4 is: 4\n", 0) :=
  run_terminates ["y"] [("TERM", "xterm")]
